import Mathlib

/-!
Verification of the Food Identification & Resolution Engine of the
protein-tracker repository.  The JavaScript source is shallowly embedded:
numbers are rationals, JavaScript truthiness on numbers (`x || d`) and
strings is made explicit, fallible network calls become an explicit
`FetchResult` outcome type, and every function is a total Lean `def`
mirroring the corresponding source function statement by statement.
-/

/-- JavaScript `x || d` for an optional number: `undefined`/`null` and `0`
are falsy, any other number is returned unchanged.
(`src/src/services/nutritionApi.js` uses this idiom throughout.) -/
def jsOrQ : Option ℚ → ℚ → ℚ
  | none, d => d
  | some v, d => if v = 0 then d else v

/-- JavaScript `s || d` for an optional string: `undefined`/`null` and the
empty string are falsy. -/
def jsOrS : Option String → String → String
  | none, d => d
  | some s, d => if s = "" then d else s

/-- JavaScript `s || null` for an optional string (used for `image_front_small_url`). -/
def jsOrNull : Option String → Option String
  | none => none
  | some s => if s = "" then none else some s

/-- JavaScript `Math.round`: round half toward positive infinity. -/
def jsRound (x : ℚ) : ℤ := ⌊x + 1/2⌋

/-- `Math.round(x * 10) / 10` — rounding to one decimal place, as in
`transformProduct` and `calculateProtein`. -/
def round1 (x : ℚ) : ℚ := (jsRound (x * 10) : ℚ) / 10

/-- `sub.isPrefixOf hay || hasSubstr sub (tail hay)`: JavaScript
`String.prototype.includes` on explicit character lists. -/
def hasSubstr (sub : List Char) : List Char → Bool
  | [] => sub.isPrefixOf ([] : List Char)
  | c :: t => sub.isPrefixOf (c :: t) || hasSubstr sub t

/-- JavaScript `s.includes(sub)`. -/
def strIncludes (s sub : String) : Bool := hasSubstr sub.data s.data

/-- The nutrient map of a raw Open Food Facts product
(`product.nutriments`); each field may be absent. -/
structure Nutriments where
  proteins_100g : Option ℚ := none
  proteins : Option ℚ := none
  serving_size : Option ℚ := none
  proteins_serving : Option ℚ := none
deriving DecidableEq, Repr

/-- A raw product payload as consumed by `transformProduct`
(`src/src/services/nutritionApi.js`). -/
structure Product where
  code : String := ""
  product_name : Option String := none
  brands : Option String := none
  nutriments : Option Nutriments := none
  image_front_small_url : Option String := none
deriving DecidableEq, Repr

/-- The food-item shape produced by the engine.  Fields that a given
constructor does not set (JavaScript objects are open dictionaries) are
modelled as `Option` with default `none`. -/
structure FoodItem where
  id : String := ""
  name : String := ""
  brand : Option String := none
  protein : ℚ := 0
  proteinPerServing : Option ℚ := none
  servingSize : ℚ := 100
  servingUnit : String := "g"
  source : String := ""
  confidence : Option ℤ := none
  originalClass : Option String := none
  image : Option String := none
deriving DecidableEq, Repr

/-- `transformProduct` from `src/src/services/nutritionApi.js` lines 63-84. -/
def transformProduct (product : Product) : FoodItem :=
  let nutriments := product.nutriments.getD {}
  let proteinPer100g := jsOrQ nutriments.proteins_100g (jsOrQ nutriments.proteins 0)
  let servingSize := jsOrQ nutriments.serving_size 100
  let proteinPerServing :=
    jsOrQ nutriments.proteins_serving (proteinPer100g * servingSize / 100)
  { id := product.code
    name := jsOrS product.product_name ("Unknown Product")
    brand := some (jsOrS product.brands (""))
    protein := round1 proteinPer100g
    proteinPerServing := some (round1 proteinPerServing)
    servingSize := servingSize
    servingUnit := "g"
    source := "openfoodfacts"
    confidence := none
    originalClass := none
    image := jsOrNull product.image_front_small_url }

/-- The seen-set deduplication of `searchFoods` lines 44-49: keep a product
iff its `code` has not been seen among earlier products. -/
def dedupByCode : List Product → List String → List Product
  | [], _ => []
  | p :: ps, seen =>
    if p.code ∈ seen then dedupByCode ps seen
    else p :: dedupByCode ps (p.code :: seen)

/-- The Result Merger (`searchFoods` lines 42-51): concatenate the two raw
result arrays, deduplicate by `code` keeping the first occurrence,
normalize each survivor, and keep only items with `protein > 0`. -/
def mergePipeline (A B : List Product) : List FoodItem :=
  (((dedupByCode (A ++ B) []).map transformProduct).filter
    fun item => decide (0 < item.protein))

/-- Outcome of one `fetch`: a thrown network error, or a response with an
`ok` status flag and a parsed `products` array. -/
inductive FetchResult where
  | failure : FetchResult
  | success (ok : Bool) (products : List Product) : FetchResult
deriving DecidableEq, Repr

/-- `searchFoods` from `src/src/services/nutritionApi.js` lines 12-56 as a
function of the two fetch outcomes (primary structured search, secondary
free-text search).  A thrown primary fetch, a non-ok primary response, or a
thrown secondary fetch reaches the outer `catch`, which returns `[]`; a
non-ok secondary response only resets the secondary products to `[]`. -/
def searchFoods : FetchResult → FetchResult → List FoodItem
  | FetchResult.failure, _ => []
  | FetchResult.success false _, _ => []
  | FetchResult.success true _, FetchResult.failure => []
  | FetchResult.success true ps1, FetchResult.success ok2 ps2 =>
      mergePipeline ps1 (if ok2 then ps2 else [])

/-- `COMMON_FOODS` from `src/src/services/nutritionApi.js` lines 122-153,
in source order (including the duplicated Cottage Cheese entry).  The
source objects carry no `id`; `searchCommonFoods` adds it. -/
def COMMON_FOODS : List FoodItem := [
  { name := "Chicken Breast (cooked)", protein := 31, servingSize := 100, servingUnit := "g", source := "common" },
  { name := "Turkey Breast (cooked)", protein := 30, servingSize := 100, servingUnit := "g", source := "common" },
  { name := "Lean Beef (cooked)", protein := 26, servingSize := 100, servingUnit := "g", source := "common" },
  { name := "Salmon (cooked)", protein := 25, servingSize := 100, servingUnit := "g", source := "common" },
  { name := "Tuna (canned)", protein := 26, servingSize := 100, servingUnit := "g", source := "common" },
  { name := "Egg (whole)", protein := 6, servingSize := 1, servingUnit := "egg", source := "common" },
  { name := "Egg White", protein := 3.6, servingSize := 1, servingUnit := "egg", source := "common" },
  { name := "Greek Yogurt", protein := 10, servingSize := 100, servingUnit := "g", source := "common" },
  { name := "Cottage Cheese", protein := 11, servingSize := 100, servingUnit := "g", source := "common" },
  { name := "Milk (whole)", protein := 3.2, servingSize := 100, servingUnit := "ml", source := "common" },
  { name := "Whey Protein Powder", protein := 25, servingSize := 30, servingUnit := "g", source := "common" },
  { name := "Tofu (firm)", protein := 8, servingSize := 100, servingUnit := "g", source := "common" },
  { name := "Lentils (cooked)", protein := 9, servingSize := 100, servingUnit := "g", source := "common" },
  { name := "Black Beans (cooked)", protein := 8.9, servingSize := 100, servingUnit := "g", source := "common" },
  { name := "Chickpeas (cooked)", protein := 8.9, servingSize := 100, servingUnit := "g", source := "common" },
  { name := "Quinoa (cooked)", protein := 4.4, servingSize := 100, servingUnit := "g", source := "common" },
  { name := "Almonds", protein := 21, servingSize := 100, servingUnit := "g", source := "common" },
  { name := "Peanut Butter", protein := 25, servingSize := 100, servingUnit := "g", source := "common" },
  { name := "Cottage Cheese", protein := 11, servingSize := 100, servingUnit := "g", source := "common" },
  { name := "Shrimp (cooked)", protein := 24, servingSize := 100, servingUnit := "g", source := "common" },
  { name := "Tilapia (cooked)", protein := 26, servingSize := 100, servingUnit := "g", source := "common" },
  { name := "Ground Turkey (cooked)", protein := 27, servingSize := 100, servingUnit := "g", source := "common" },
  { name := "Ground Beef 90% (cooked)", protein := 26, servingSize := 100, servingUnit := "g", source := "common" },
  { name := "Protein Bar", protein := 20, servingSize := 1, servingUnit := "bar", source := "common" },
  { name := "Edamame (cooked)", protein := 11, servingSize := 100, servingUnit := "g", source := "common" },
  { name := "Tempeh", protein := 19, servingSize := 100, servingUnit := "g", source := "common" },
  { name := "Seitan", protein := 25, servingSize := 100, servingUnit := "g", source := "common" },
  { name := "Pumpkin Seeds", protein := 19, servingSize := 100, servingUnit := "g", source := "common" },
  { name := "Chia Seeds", protein := 17, servingSize := 100, servingUnit := "g", source := "common" },
  { name := "Hemp Seeds", protein := 31, servingSize := 100, servingUnit := "g", source := "common" }]

/-- `searchCommonFoods` from `src/src/services/nutritionApi.js` lines
160-168: filter by case-insensitive substring match on the name, then
attach a synthetic id built from the index in the filtered list. -/
def searchCommonFoods (query : String) : List FoodItem :=
  let lowerQuery := query.toLower
  ((COMMON_FOODS.filter fun food => strIncludes food.name.toLower lowerQuery).enum).map
    fun e => { e.2 with id := "common-" ++ toString e.1 }

/-- `searchAllFoods` from `src/src/services/nutritionApi.js` lines 175-201:
curated results first, then those api results whose lowercased name equals
no curated result's lowercased name.  (`searchFoods` never throws, and the
surrounding `try`/`catch` would absorb a throw anyway; the embedding is a
total function, matching the absence of propagated exceptions.) -/
def searchAllFoods (query : String) (r1 r2 : FetchResult) : List FoodItem :=
  let commonResults := searchCommonFoods query
  let apiResults := searchFoods r1 r2
  commonResults ++ apiResults.filter
    fun apiFood => !(commonResults.any fun common => common.name.toLower == apiFood.name.toLower)

/-- A remote product as in the spec's concrete scenario 1: the free
Open Food Facts record named like the curated chicken-breast entry. -/
def chickenRemote : Product :=
  { code := "X1", product_name := some "chicken breast (cooked)",
    nutriments := some { proteins_100g := some 31.2 } }

/-- `RECOGNITION_CONFIG.MIN_CONFIDENCE` from `src/src/utils/constants.js`. -/
def MIN_CONFIDENCE : ℚ := 0.3

/-- `RECOGNITION_CONFIG.MAX_RESULTS` from `src/src/utils/constants.js`. -/
def MAX_RESULTS : ℕ := 3

/-- The value of one entry of `FOOD_CLASS_MAPPINGS`. -/
structure ClassValue where
  name : String
  protein : ℚ
deriving DecidableEq, Repr

/-- `FOOD_CLASS_MAPPINGS` from `src/src/utils/constants.js` lines 40-110, in
object insertion order (the order `Object.entries` yields). -/
def FOOD_CLASS_MAPPINGS : List (String × ClassValue) := [
  ("banana", ⟨"Banana", 1.1⟩),
  ("pizza", ⟨"Pizza", 12⟩),
  ("hamburger", ⟨"Hamburger", 17⟩),
  ("hotdog", ⟨"Hot Dog", 10⟩),
  ("burrito", ⟨"Burrito", 15⟩),
  ("cheeseburger", ⟨"Cheeseburger", 18⟩),
  ("meat loaf", ⟨"Meatloaf", 22⟩),
  ("French loaf", ⟨"Bread", 9⟩),
  ("bagel", ⟨"Bagel", 10⟩),
  ("pretzel", ⟨"Pretzel", 8⟩),
  ("carbonara", ⟨"Carbonara", 14⟩),
  ("chicken", ⟨"Chicken", 27⟩),
  ("eggnog", ⟨"Eggnog", 5⟩),
  ("ice cream", ⟨"Ice Cream", 3⟩),
  ("cheese", ⟨"Cheese", 25⟩),
  ("eggs", ⟨"Eggs", 13⟩),
  ("breakfast", ⟨"Breakfast Plate", 20⟩),
  ("guacamole", ⟨"Guacamole", 2⟩),
  ("mixed vegetables", ⟨"Mixed Vegetables", 3⟩),
  ("salad", ⟨"Salad", 2⟩),
  ("steak", ⟨"Steak", 26⟩),
  ("fish", ⟨"Fish", 22⟩),
  ("salmon", ⟨"Salmon", 25⟩),
  ("shrimp", ⟨"Shrimp", 24⟩),
  ("lobster", ⟨"Lobster", 24⟩),
  ("crab", ⟨"Crab", 19⟩),
  ("sushi", ⟨"Sushi", 7⟩),
  ("taco", ⟨"Taco", 12⟩),
  ("sandwich", ⟨"Sandwich", 15⟩),
  ("pancake", ⟨"Pancakes", 6⟩),
  ("waffle", ⟨"Waffle", 7⟩),
  ("omelette", ⟨"Omelette", 14⟩),
  ("scrambled eggs", ⟨"Scrambled Eggs", 13⟩),
  ("bacon", ⟨"Bacon", 37⟩),
  ("sausage", ⟨"Sausage", 18⟩),
  ("yogurt", ⟨"Yogurt", 10⟩),
  ("cottage cheese", ⟨"Cottage Cheese", 11⟩),
  ("peanut butter", ⟨"Peanut Butter", 25⟩),
  ("almond", ⟨"Almonds", 21⟩),
  ("peanut", ⟨"Peanuts", 26⟩),
  ("walnut", ⟨"Walnuts", 15⟩),
  ("cashew", ⟨"Cashews", 18⟩),
  ("pumpkin seed", ⟨"Pumpkin Seeds", 19⟩),
  ("sunflower seed", ⟨"Sunflower Seeds", 21⟩),
  ("tofu", ⟨"Tofu", 8⟩),
  ("tempeh", ⟨"Tempeh", 19⟩),
  ("lentil", ⟨"Lentils", 9⟩),
  ("bean", ⟨"Beans", 9⟩),
  ("chickpea", ⟨"Chickpeas", 9⟩),
  ("quinoa", ⟨"Quinoa", 4.4⟩),
  ("rice", ⟨"Rice", 2.7⟩),
  ("pasta", ⟨"Pasta", 5⟩),
  ("noodle", ⟨"Noodles", 5⟩),
  ("soup", ⟨"Soup", 6⟩),
  ("stew", ⟨"Stew", 15⟩),
  ("curry", ⟨"Curry", 12⟩),
  ("dumpling", ⟨"Dumplings", 8⟩),
  ("spring roll", ⟨"Spring Roll", 5⟩),
  ("kebab", ⟨"Kebab", 20⟩),
  ("meatball", ⟨"Meatballs", 18⟩),
  ("pot roast", ⟨"Pot Roast", 25⟩),
  ("ribs", ⟨"Ribs", 23⟩),
  ("pork chop", ⟨"Pork Chop", 25⟩),
  ("lamb", ⟨"Lamb", 25⟩),
  ("venison", ⟨"Venison", 26⟩),
  ("turkey", ⟨"Turkey", 29⟩),
  ("duck", ⟨"Duck", 19⟩),
  ("goose", ⟨"Goose", 25⟩)]

/-- One MobileNet prediction: `{ className, probability }`. -/
structure Prediction where
  className : String
  probability : ℚ
deriving DecidableEq, Repr

/-- `mapToFoodItem` from `src/src/services/foodRecognition.js` lines 89-109:
the first mapping table entry whose key occurs (case-insensitively) inside
the class name produces the item; otherwise `null`. -/
def mapToFoodItem (prediction : Prediction) : Option FoodItem :=
  let className := prediction.className.toLower
  FOOD_CLASS_MAPPINGS.findSome? fun kv =>
    if strIncludes className kv.1.toLower then
      some { id := "recognized-" ++ kv.1, name := kv.2.name, protein := kv.2.protein,
             servingSize := 100, servingUnit := "g", source := "recognition",
             confidence := some (jsRound (prediction.probability * 100)),
             originalClass := some prediction.className }
    else none

/-- `recognizeFood` lines 66-69: surviving predictions mapped through
`mapToFoodItem`, dropping the `null` results. -/
def directResults (predictions : List Prediction) : List FoodItem :=
  (predictions.filter fun pred => decide (MIN_CONFIDENCE ≤ pred.probability)).filterMap
    mapToFoodItem

/-- One iteration of the `fuzzyMatchFoods` keyword loop (lines 122-142):
split the lowercased class name on commas and slashes, trim each keyword,
and return the first curated match of the first keyword that has one,
restamped as a recognition result. -/
def fuzzyOne (prediction : Prediction) : Option FoodItem :=
  let className := prediction.className.toLower
  let keywords := (className.split fun c => c == ',' || c == '/').map String.trim
  keywords.findSome? fun keyword =>
    match searchCommonFoods keyword with
    | [] => none
    | bestMatch :: _ =>
        some { bestMatch with
                 source := "recognition"
                 confidence := some (jsRound (prediction.probability * 100))
                 originalClass := some prediction.className }

/-- `fuzzyMatchFoods` from `src/src/services/foodRecognition.js` lines
116-146: skip predictions below the confidence floor, emit at most one
curated match per prediction, and truncate to `MAX_RESULTS`. -/
def fuzzyMatchFoods (predictions : List Prediction) : List FoodItem :=
  ((predictions.filter fun pred => !decide (pred.probability < MIN_CONFIDENCE)).filterMap
    fuzzyOne).take MAX_RESULTS

/-- `recognizeFood` from `src/src/services/foodRecognition.js` lines 58-82,
as a function of the classifier's prediction list (the classifier itself is
an external collaborator; it is invoked as `classify(image, MAX_RESULTS)`).
The fuzzy fallback runs only when the direct pass emitted nothing and at
least one prediction exists. -/
def recognizeFood (predictions : List Prediction) : List FoodItem :=
  let foodResults := directResults predictions
  if foodResults.isEmpty && !predictions.isEmpty then
    foodResults ++ fuzzyMatchFoods predictions
  else foodResults

/-- `calculateProtein` from the food-search component
(`src/unnamed/part_002` lines 461-465): scale the record's protein figure by
`servingSize / (record.servingSize || 100)` and round to one decimal.
The `if (!selectedFood) return 0` guard is nullability plumbing; the
embedding takes the record itself. -/
def calculateProtein (selectedFood : FoodItem) (servingSize : ℚ) : ℚ :=
  let ratio := servingSize / (if selectedFood.servingSize = 0 then 100 else selectedFood.servingSize)
  round1 (selectedFood.protein * ratio)

/-! ## Lemmas about the seen-set deduplication -/

theorem dedupByCode_sublist (l : List Product) (seen : List String) :
    (dedupByCode l seen).Sublist l := by
  induction l generalizing seen with
  | nil => simp [dedupByCode]
  | cons p ps ih =>
    simp only [dedupByCode]
    split
    · exact (ih seen).cons p
    · exact (ih (p.code :: seen)).cons₂ p

theorem dedupByCode_code_not_seen (l : List Product) (seen : List String) :
    ∀ p ∈ dedupByCode l seen, p.code ∉ seen := by
  induction l generalizing seen with
  | nil => simp [dedupByCode]
  | cons p ps ih =>
    simp only [dedupByCode]
    split
    · exact ih seen
    · intro q hq
      rcases List.mem_cons.mp hq with h | h
      · subst h; assumption
      · have := ih (p.code :: seen) q h
        exact fun hmem => this (List.mem_cons_of_mem _ hmem)

theorem dedupByCode_codes_nodup (l : List Product) (seen : List String) :
    ((dedupByCode l seen).map Product.code).Nodup := by
  induction l generalizing seen with
  | nil => simp [dedupByCode]
  | cons p ps ih =>
    simp only [dedupByCode]
    split
    · exact ih seen
    · refine List.Nodup.cons ?_ (ih (p.code :: seen))
      intro hmem
      rcases List.mem_map.mp hmem with ⟨q, hq, hcode⟩
      exact dedupByCode_code_not_seen ps (p.code :: seen) q hq
        (hcode ▸ List.mem_cons_self p.code seen)

theorem dedupByCode_find? (l : List Product) (seen : List String) :
    ∀ p ∈ dedupByCode l seen, l.find? (fun x => x.code == p.code) = some p := by
  induction l generalizing seen with
  | nil => simp [dedupByCode]
  | cons p ps ih =>
    simp only [dedupByCode]
    by_cases hmem : p.code ∈ seen
    · simp only [if_pos hmem]
      intro q hq
      have hq_not : q.code ∉ seen := dedupByCode_code_not_seen ps seen q hq
      have hf : (p.code == q.code) = false := by
        simp only [beq_eq_false_iff_ne]
        exact fun h => hq_not (h ▸ hmem)
      simp only [List.find?_cons, hf]
      exact ih seen q hq
    · simp only [if_neg hmem]
      intro q hq
      rcases List.mem_cons.mp hq with h | h
      · subst h
        rw [List.find?_cons_of_pos _ (by simp)]
      · have hq_not : q.code ∉ p.code :: seen :=
          dedupByCode_code_not_seen ps (p.code :: seen) q h
        have hf : (p.code == q.code) = false := by
          simp only [beq_eq_false_iff_ne]
          exact fun hc => hq_not (hc ▸ List.mem_cons_self _ _)
        simp only [List.find?_cons, hf]
        exact ih (p.code :: seen) q h

theorem transformProduct_id (p : Product) : (transformProduct p).id = p.code := rfl

theorem mergePipeline_ids_nodup (A B : List Product) :
    ((mergePipeline A B).map FoodItem.id).Nodup := by
  have h1 : ((dedupByCode (A ++ B) []).map transformProduct).map FoodItem.id
      = (dedupByCode (A ++ B) []).map Product.code := by
    rw [List.map_map]; rfl
  have hsub : (mergePipeline A B).Sublist ((dedupByCode (A ++ B) []).map transformProduct) :=
    List.filter_sublist _
  have hmap : ((mergePipeline A B).map FoodItem.id).Sublist
      (((dedupByCode (A ++ B) []).map transformProduct).map FoodItem.id) := hsub.map _
  rw [h1] at hmap
  exact (dedupByCode_codes_nodup _ _).sublist hmap

theorem mergePipeline_mem (r : FoodItem) (A B : List Product)
    (hr : r ∈ mergePipeline A B) :
    ∃ p, p ∈ dedupByCode (A ++ B) [] ∧ r = transformProduct p := by
  have hmem := (List.mem_filter.mp hr).1
  rcases List.mem_map.mp hmem with ⟨p, hp, he⟩
  exact ⟨p, hp, he.symm⟩

/-- **C1.** For all raw result arrays `A` and `B` given to the Result
Merger: no two output records share an identity key; every output record is
the normalization of the *first* record of `A ++ B` carrying its key (so a
key present in both arrays yields the fields of the occurrence from the
earlier array, and in particular the key appeared in `A` or `B`); and the
output is a sublist of the normalized concatenation, so survivors keep
their first-seen relative order. -/
theorem merger_dedup_first_occurrence_order (A B : List Product) :
    ((mergePipeline A B).map FoodItem.id).Nodup ∧
    (∀ r ∈ mergePipeline A B, ∃ p, p ∈ A ++ B ∧ p.code = r.id ∧
        (A ++ B).find? (fun x => x.code == r.id) = some p ∧ r = transformProduct p) ∧
    (mergePipeline A B).Sublist ((A ++ B).map transformProduct) := by
  refine ⟨mergePipeline_ids_nodup A B, ?_, ?_⟩
  · intro r hr
    rcases mergePipeline_mem r A B hr with ⟨p, hp, he⟩
    have hfind : (A ++ B).find? (fun x => x.code == p.code) = some p :=
      dedupByCode_find? (A ++ B) [] p hp
    have hid : p.code = r.id := by rw [he]; rfl
    refine ⟨p, (dedupByCode_sublist (A ++ B) []).subset hp, hid, ?_, he⟩
    rw [← hid]
    exact hfind
  · exact (List.filter_sublist _).trans ((dedupByCode_sublist (A ++ B) []).map transformProduct)

/-- **C10.** The two internal queries of `searchFoods` fail asymmetrically:
a thrown primary fetch or a non-ok primary response makes `searchFoods`
return `[]`, discarding whatever the secondary free-text query would have
produced, while a non-ok secondary response merely degrades `searchFoods`
to the primary query's results alone. -/
theorem searchFoods_asymmetric_failure :
    (∀ r2, searchFoods FetchResult.failure r2 = []) ∧
    (∀ ps1 r2, searchFoods (FetchResult.success false ps1) r2 = []) ∧
    (∀ ps1 ps2, searchFoods (FetchResult.success true ps1) (FetchResult.success false ps2)
        = mergePipeline ps1 []) :=
  ⟨fun _ => rfl, fun _ _ => rfl, fun _ _ => rfl⟩

/-- **C2.** When the remote side fails — thrown primary fetch, non-ok
primary response, or thrown secondary fetch (network error / timeout) —
`searchAllFoods` returns exactly the curated matches, and (being a total
function, like the exception-absorbing source) propagates no failure. -/
theorem combiner_degrades_to_curated_on_remote_failure (q : String) (r1 r2 : FetchResult)
    (h : r1 = FetchResult.failure ∨ (∃ ps, r1 = FetchResult.success false ps) ∨
      r2 = FetchResult.failure) :
    searchAllFoods q r1 r2 = searchCommonFoods q := by
  have hapi : searchFoods r1 r2 = [] := by
    rcases h with h | ⟨ps, h⟩ | h
    · subst h
      cases r2 <;> rfl
    · subst h
      cases r2 <;> rfl
    · subst h
      cases r1 with
      | failure => rfl
      | success ok ps => cases ok <;> rfl
  simp [searchAllFoods, hapi]

/-- Witness for C2 at a concrete query with both fetches failing. -/
theorem combiner_degrades_witness :
    searchAllFoods ("chicken") FetchResult.failure FetchResult.failure
      = searchCommonFoods ("chicken") :=
  combiner_degrades_to_curated_on_remote_failure ("chicken") _ _ (Or.inl rfl)

/-- Modelled from the spec (refinement target for the Source-Priority
Combiner, 4.3 step 3): curated matches in Curated Reference Set order,
followed by the remote matches whose name, compared case-insensitively,
does not exactly equal any curated match's name. -/
def combinerSpec (q : String) (remote : List FoodItem) : List FoodItem :=
  let curated := searchCommonFoods q
  curated ++ remote.filter fun r =>
    decide (∀ c ∈ curated, ¬ c.name.toLower = r.name.toLower)

theorem dedup_pred_eq (curated : List FoodItem) (a : FoodItem) :
    (!(curated.any fun c => c.name.toLower == a.name.toLower))
      = decide (∀ c ∈ curated, ¬ c.name.toLower = a.name.toLower) := by
  by_cases h : ∀ c ∈ curated, ¬ c.name.toLower = a.name.toLower
  · have h1 : (curated.any fun c => c.name.toLower == a.name.toLower) = false := by
      rw [List.any_eq_false]
      intro c hc
      simpa using h c hc
    rw [h1, decide_eq_true h]
    rfl
  · have h1 : (curated.any fun c => c.name.toLower == a.name.toLower) = true := by
      rw [List.any_eq_true]
      push_neg at h
      rcases h with ⟨c, hc, he⟩
      exact ⟨c, hc, by simpa using he⟩
    rw [h1, decide_eq_false h]
    rfl

/-- **C3.** The Source-Priority Combiner's output is exactly the curated
matches in Curated Reference Set order followed by the remote records whose
lowercased name equals no curated match's lowercased name; concretely, with
a remote record named "chicken breast (cooked)", `searchAllFoods "chicken"`
returns exactly one record named "Chicken Breast (cooked)" — the curated
one. -/
theorem combiner_curated_priority_caseinsensitive_dedup :
    (∀ q r1 r2, searchAllFoods q r1 r2 = combinerSpec q (searchFoods r1 r2)) ∧
    (searchAllFoods ("chicken") (FetchResult.success true [chickenRemote])
        (FetchResult.success true [])).map FoodItem.name = ["Chicken Breast (cooked)"] ∧
    (searchAllFoods ("chicken") (FetchResult.success true [chickenRemote])
        (FetchResult.success true [])).map FoodItem.source = ["common"] := by
  refine ⟨fun q r1 r2 => ?_, ?_, ?_⟩
  · simp only [searchAllFoods, combinerSpec]
    exact congrArg _ (List.filter_congr fun a _ => dedup_pred_eq (searchCommonFoods q) a)
  · with_unfolding_all decide
  · with_unfolding_all decide

/-- `round1` of a value that is already an integer number of tenths is that
value itself. -/
theorem round1_intCast_div (k : ℤ) : round1 ((k : ℚ) / 10) = (k : ℚ) / 10 := by
  unfold round1 jsRound
  have h1 : (k : ℚ) / 10 * 10 = (k : ℚ) := by
    field_simp
  rw [h1, add_comm, Int.floor_add_int]
  norm_num

theorem round1_round1 (x : ℚ) : round1 (round1 x) = round1 x :=
  round1_intCast_div (jsRound (x * 10))

/-- `x` is an integer number of tenths — "rounded to one decimal place". -/
def isTenth (x : ℚ) : Prop := ∃ k : ℤ, x = (k : ℚ) / 10

theorem round1_isTenth (x : ℚ) : isTenth (round1 x) := ⟨jsRound (x * 10), rfl⟩

theorem round1_nonneg (x : ℚ) (hx : 0 ≤ x) : 0 ≤ round1 x := by
  unfold round1 jsRound
  have h1 : (0:ℚ) ≤ x * 10 + 1/2 := by positivity
  have h2 : (0:ℤ) ≤ ⌊x * 10 + 1/2⌋ := Int.floor_nonneg.mpr h1
  have h3 : (0:ℚ) ≤ (⌊x * 10 + 1/2⌋ : ℚ) := by exact_mod_cast h2
  exact div_nonneg h3 (by norm_num)

theorem jsOrQ_nonneg (o : Option ℚ) (d : ℚ) (ho : ∀ v, o = some v → 0 ≤ v) (hd : 0 ≤ d) :
    0 ≤ jsOrQ o d := by
  cases o with
  | none => simpa [jsOrQ] using hd
  | some v =>
    by_cases hv : v = 0
    · simp [jsOrQ, hv, hd]
    · simpa [jsOrQ, hv] using ho v rfl

/-- A raw payload carrying a negative per-100 protein value, as a remote
source is free to send. -/
def negativeProduct : Product :=
  { code := "NEG", nutriments := some { proteins_100g := some (-1) } }

/-- **C4 counterexample.** The Record Normalizer does not guarantee
`proteinPer100 ≥ 0` for every raw payload: a payload whose nutrient map
carries `proteins_100g = -1` normalizes to a record with negative protein
(JavaScript `||` only replaces missing or zero values, not negative ones). -/
theorem normalizer_negative_protein_counterexample :
    (transformProduct negativeProduct).protein < 0 := by
  with_unfolding_all decide

/-- **C4 (amended).** The Record Normalizer is a total function; whenever
the nutrient protein values present in the payload are non-negative the
output satisfies `proteinPer100 ≥ 0`; a payload without a nutrient map
yields `proteinPer100 = 0`; and both protein figures are rounded to one
decimal place (they are integer multiples of 0.1). -/
theorem normalizer_total_nonneg_amended (p : Product)
    (h : ∀ n, p.nutriments = some n →
      (∀ v, n.proteins_100g = some v → 0 ≤ v) ∧ (∀ v, n.proteins = some v → 0 ≤ v)) :
    0 ≤ (transformProduct p).protein ∧
    (p.nutriments = none → (transformProduct p).protein = 0) ∧
    isTenth (transformProduct p).protein ∧
    (∀ v, (transformProduct p).proteinPerServing = some v → isTenth v) := by
  refine ⟨?_, ?_, round1_isTenth _, ?_⟩
  · have hbase : 0 ≤ jsOrQ (p.nutriments.getD {}).proteins_100g
        (jsOrQ (p.nutriments.getD {}).proteins 0) := by
      cases hnut : p.nutriments with
      | none => simp [hnut, jsOrQ]
      | some n =>
        rcases h n hnut with ⟨h100, hprot⟩
        simp only [hnut, Option.getD_some]
        exact jsOrQ_nonneg _ _ h100 (jsOrQ_nonneg _ _ hprot le_rfl)
    exact round1_nonneg _ hbase
  · intro h0
    show round1 (jsOrQ (p.nutriments.getD {}).proteins_100g
        (jsOrQ (p.nutriments.getD {}).proteins 0)) = 0
    rw [h0]
    with_unfolding_all decide
  · intro v hv
    have hv' : some (round1 (jsOrQ (p.nutriments.getD {}).proteins_serving
        (jsOrQ (p.nutriments.getD {}).proteins_100g (jsOrQ (p.nutriments.getD {}).proteins 0) *
          jsOrQ (p.nutriments.getD {}).serving_size 100 / 100))) = some v := hv
    have := Option.some.inj hv'
    subst this
    exact round1_isTenth _

/-- A payload with no nutrient map, at which the amended C4 theorem is
witnessed concretely. -/
def plainProduct : Product := { code := "W" }

/-- Witness for the amended C4 theorem at `plainProduct`. -/
theorem normalizer_amended_witness :
    0 ≤ (transformProduct plainProduct).protein ∧
    (plainProduct.nutriments = none → (transformProduct plainProduct).protein = 0) ∧
    isTenth (transformProduct plainProduct).protein ∧
    (∀ v, (transformProduct plainProduct).proteinPerServing = some v → isTenth v) :=
  normalizer_total_nonneg_amended plainProduct (fun _ hn => Option.noConfusion hn)

/-- The record of the spec's concrete scenario 5: `proteinPer100 = 8`,
`servingSize = 100`. -/
def scalerDemo : FoodItem := { name := "demo", protein := 8, servingSize := 100 }

/-- A payload whose source supplies a directly measured per-serving value
(7) different from its per-100 value (50). -/
def measuredProduct : Product :=
  { code := "M", nutriments := some { proteins_100g := some 50, proteins_serving := some 7 } }

/-- **C5 counterexample.** The identity `Scaler(r, r.servingSize) ==
r.proteinPerServing` fails — far beyond one-decimal rounding — for a
per-100 record whose source supplied a measured per-serving value: the
scaler returns 50 while the record's `proteinPerServing` is 7. -/
theorem scaler_identity_counterexample :
    (transformProduct measuredProduct).servingSize = 100 ∧
    calculateProtein (transformProduct measuredProduct)
        (transformProduct measuredProduct).servingSize = 50 ∧
    (transformProduct measuredProduct).proteinPerServing = some 7 := by
  with_unfolding_all decide

/-- **C5 (amended).** For every record whose reference serving is 100 units
and every positive chosen size `s` the Serving Scaler returns
`round1(protein * (s / 100))`; the scenario record with `proteinPer100 = 8`
scaled to 150 yields 12.0; and the identity
`Scaler(r, r.servingSize) = r.proteinPerServing` holds (exactly, within
one-decimal rounding) for every normalized record whose per-serving value
was derived from the per-100 value rather than measured by the source. -/
theorem scaler_linear_and_identity_amended :
    (∀ (r : FoodItem) (s : ℚ), r.servingSize = 100 → 0 < s →
        calculateProtein r s = round1 (r.protein * (s / 100))) ∧
    calculateProtein scalerDemo 150 = 12 ∧
    (∀ p : Product, (transformProduct p).servingSize = 100 →
        ((p.nutriments.getD {}).proteins_serving = none ∨
         (p.nutriments.getD {}).proteins_serving = some 0) →
        (transformProduct p).proteinPerServing
          = some (calculateProtein (transformProduct p) (transformProduct p).servingSize)) := by
  refine ⟨?_, by with_unfolding_all decide, ?_⟩
  · intro r s hss _
    show round1 (r.protein * (s / (if r.servingSize = 0 then 100 else r.servingSize)))
      = round1 (r.protein * (s / 100))
    rw [hss]
    norm_num
  · intro p hss hps
    have hss' : jsOrQ (p.nutriments.getD {}).serving_size 100 = 100 := hss
    show some (round1 (jsOrQ (p.nutriments.getD {}).proteins_serving
        (jsOrQ (p.nutriments.getD {}).proteins_100g (jsOrQ (p.nutriments.getD {}).proteins 0) *
          jsOrQ (p.nutriments.getD {}).serving_size 100 / 100)))
      = some (round1 ((round1 (jsOrQ (p.nutriments.getD {}).proteins_100g
            (jsOrQ (p.nutriments.getD {}).proteins 0))) *
          (jsOrQ (p.nutriments.getD {}).serving_size 100 /
            (if jsOrQ (p.nutriments.getD {}).serving_size 100 = 0 then 100
             else jsOrQ (p.nutriments.getD {}).serving_size 100))))
    rw [hss']
    have h1 : jsOrQ (p.nutriments.getD {}).proteins_serving
        (jsOrQ (p.nutriments.getD {}).proteins_100g (jsOrQ (p.nutriments.getD {}).proteins 0) *
          (100:ℚ) / 100)
        = jsOrQ (p.nutriments.getD {}).proteins_100g (jsOrQ (p.nutriments.getD {}).proteins 0) *
          (100:ℚ) / 100 := by
      rcases hps with h | h <;> simp [h, jsOrQ]
    rw [h1]
    have h2 : ∀ x : ℚ, x * (100:ℚ) / 100 = x := fun x => by field_simp
    rw [h2]
    norm_num
    exact (round1_round1 _).symm

/-- Witness for the amended C5 theorem: the linear formula at the scenario
record scaled to 150, and the identity at a derived-per-serving record. -/
theorem scaler_amended_witness :
    calculateProtein scalerDemo 150 = round1 (scalerDemo.protein * (150 / 100)) ∧
    (transformProduct plainProduct).proteinPerServing
      = some (calculateProtein (transformProduct plainProduct)
          (transformProduct plainProduct).servingSize) :=
  ⟨scaler_linear_and_identity_amended.1 scalerDemo 150 rfl (by norm_num),
   scaler_linear_and_identity_amended.2.2 plainProduct rfl (Or.inl rfl)⟩

/-- **C6.** Fuzzy matching runs only when direct mapping emitted zero
records across all surviving pairs: whenever the direct pass produced at
least one record, `recognizeFood` returns exactly the direct-mapping
records, and every returned record really is the direct mapping of some
surviving prediction — no fuzzy-match record appears, even for surviving
pairs without a direct mapping. -/
theorem label_resolver_direct_suppresses_fuzzy (predictions : List Prediction)
    (h : directResults predictions ≠ []) :
    recognizeFood predictions = directResults predictions ∧
    ∀ r ∈ recognizeFood predictions, ∃ p, p ∈ predictions ∧
      MIN_CONFIDENCE ≤ p.probability ∧ mapToFoodItem p = some r := by
  have heq : recognizeFood predictions = directResults predictions := by
    simp only [recognizeFood]
    cases hd : directResults predictions with
    | nil => exact absurd hd h
    | cons a t => simp
  refine ⟨heq, ?_⟩
  intro r hr
  rw [heq] at hr
  rcases List.mem_filterMap.mp hr with ⟨p, hp, hmap⟩
  have hp' := List.mem_filter.mp hp
  refine ⟨p, hp'.1, ?_, hmap⟩
  simpa using hp'.2

/-- The classifier output of the spec's concrete scenario 3. -/
def cheeseburgerPreds : List Prediction := [⟨"cheeseburger", 0.82⟩, ⟨"plate", 0.10⟩]

/-- Witness for C6 at scenario 3's classifier output, whose first
prediction has the direct mapping `cheeseburger`. -/
theorem label_resolver_direct_witness :
    recognizeFood cheeseburgerPreds = directResults cheeseburgerPreds ∧
    ∀ r ∈ recognizeFood cheeseburgerPreds, ∃ p, p ∈ cheeseburgerPreds ∧
      MIN_CONFIDENCE ≤ p.probability ∧ mapToFoodItem p = some r :=
  label_resolver_direct_suppresses_fuzzy cheeseburgerPreds (by with_unfolding_all decide)

/-- **C7.** If every prediction's probability is strictly below
`MIN_CONFIDENCE`, the Label Resolver returns the empty list: the pairs are
discarded before direct mapping, and the fuzzy pass skips them too. -/
theorem label_resolver_all_below_threshold_empty (predictions : List Prediction)
    (h : ∀ p ∈ predictions, p.probability < MIN_CONFIDENCE) :
    recognizeFood predictions = [] := by
  have hdirect : directResults predictions = [] := by
    unfold directResults
    have hfil : predictions.filter (fun pred => decide (MIN_CONFIDENCE ≤ pred.probability)) = [] := by
      rw [List.filter_eq_nil_iff]
      intro p hp
      simpa using not_le.mpr (h p hp)
    rw [hfil]
    rfl
  have hfuzzy : fuzzyMatchFoods predictions = [] := by
    unfold fuzzyMatchFoods
    have hfil : predictions.filter (fun pred => !decide (pred.probability < MIN_CONFIDENCE)) = [] := by
      rw [List.filter_eq_nil_iff]
      intro p hp
      simpa using h p hp
    rw [hfil]
    rfl
  simp only [recognizeFood, hdirect, hfuzzy]
  cases predictions <;> simp

/-- Witness for C7 at a single low-confidence prediction. -/
theorem label_resolver_below_threshold_witness :
    recognizeFood [⟨"plate", (0.10 : ℚ)⟩] = [] :=
  label_resolver_all_below_threshold_empty [⟨"plate", (0.10 : ℚ)⟩]
    (by with_unfolding_all decide)

theorem fuzzyMatchFoods_length_le (predictions : List Prediction) :
    (fuzzyMatchFoods predictions).length ≤ MAX_RESULTS := by
  unfold fuzzyMatchFoods
  rw [List.length_take]
  exact min_le_left _ _

/-- **C8.** For every classifier output of at most `MAX_RESULTS`
predictions (the classifier is always invoked as
`classify(image, MAX_RESULTS)`), the Label Resolver returns at most
`MAX_RESULTS` records, on both the direct and the fuzzy paths. -/
theorem label_resolver_at_most_max_results (predictions : List Prediction)
    (h : predictions.length ≤ MAX_RESULTS) :
    (recognizeFood predictions).length ≤ MAX_RESULTS := by
  have hdir : (directResults predictions).length ≤ predictions.length := by
    unfold directResults
    exact le_trans (List.length_filterMap_le _ _) (List.length_filter_le _ _)
  simp only [recognizeFood]
  split
  · next hcond =>
      rcases Bool.and_eq_true_iff.mp hcond with ⟨h1, _⟩
      have hnil : directResults predictions = [] := by
        cases hd : directResults predictions with
        | nil => rfl
        | cons a t => rw [hd] at h1; simp [List.isEmpty] at h1
      rw [hnil, List.nil_append]
      exact fuzzyMatchFoods_length_le predictions
  · exact le_trans hdir h

/-- Witness for C8 at scenario 3's two predictions. -/
theorem label_resolver_max_results_witness :
    (recognizeFood cheeseburgerPreds).length ≤ MAX_RESULTS :=
  label_resolver_at_most_max_results cheeseburgerPreds (by decide)

theorem common_id_inj :
    ∀ i < 30, ∀ j < 30, ("common-" ++ toString i : String) = "common-" ++ toString j → i = j := by
  with_unfolding_all decide

theorem searchCommonFoods_ids_nodup (q : String) :
    ((searchCommonFoods q).map FoodItem.id).Nodup := by
  have hlen : (COMMON_FOODS.filter fun food =>
      strIncludes food.name.toLower q.toLower).length ≤ 30 :=
    le_trans (List.length_filter_le _ _) (by decide)
  simp only [searchCommonFoods]
  rw [List.map_map]
  have hfun : (FoodItem.id ∘ fun e : ℕ × FoodItem =>
      { e.2 with id := "common-" ++ toString e.1 })
      = (fun i : ℕ => "common-" ++ toString i) ∘ Prod.fst := rfl
  rw [hfun, ← List.map_map, List.enum_map_fst]
  refine List.Nodup.map_on ?_ (List.nodup_range _)
  intro i hi j hj hij
  exact common_id_inj i (lt_of_lt_of_le (List.mem_range.mp hi) hlen)
    j (lt_of_lt_of_le (List.mem_range.mp hj) hlen) hij

theorem searchFoods_ids_nodup (r1 r2 : FetchResult) :
    ((searchFoods r1 r2).map FoodItem.id).Nodup := by
  cases r1 with
  | failure => simp [searchFoods]
  | success ok ps1 =>
    cases ok with
    | false => simp [searchFoods]
    | true =>
      cases r2 with
      | failure => simp [searchFoods]
      | success ok2 ps2 => exact mergePipeline_ids_nodup _ _

/-- The classifier output falsifying C9: two distinct labels both contain
the mapping key `chicken`, so both direct-mapped records carry the id
`recognized-chicken`. -/
def duplicatePreds : List Prediction := [⟨"fried chicken", 0.5⟩, ⟨"chicken soup", 0.4⟩]

/-- A remote product whose identity key happens to be `common-0`, the
synthetic id the Curated Reference Set accessor gives its first match; the
source nowhere prevents such a collision. -/
def commonCollisionProduct : Product :=
  { code := "common-0", product_name := some "Remote Collider",
    nutriments := some { proteins_100g := some 10 } }

/-- **C9 counterexample.** Two of the claimed result sets can repeat an
`id`.  Label Resolver: on `duplicatePreds` both direct-mapped records carry
`recognized-chicken`.  Source-Priority Combiner: a remote record with
identity key `common-0` and a non-curated name survives next to the curated
match `common-0`, so `searchAllFoods "chicken"` returns two records with
the same id. -/
theorem duplicate_id_counterexample :
    ((recognizeFood duplicatePreds).map FoodItem.id
        = ["recognized-chicken", "recognized-chicken"] ∧
      ¬ ((recognizeFood duplicatePreds).map FoodItem.id).Nodup) ∧
    ((searchAllFoods ("chicken") (FetchResult.success true [commonCollisionProduct])
          (FetchResult.success true [])).map FoodItem.id = ["common-0", "common-0"] ∧
      ¬ ((searchAllFoods ("chicken") (FetchResult.success true [commonCollisionProduct])
          (FetchResult.success true [])).map FoodItem.id).Nodup) := by
  refine ⟨⟨?_, ?_⟩, ?_, ?_⟩
  · with_unfolding_all decide
  · with_unfolding_all decide
  · with_unfolding_all decide
  · with_unfolding_all decide

/-- **C9 (amended).** The Result Merger's output always has pairwise
distinct ids, and the Source-Priority Combiner's output has pairwise
distinct ids whenever no remote record's identity key collides with a
synthetic curated id; the Label Resolver's output, by contrast, may repeat
an id (see the counterexample). -/
theorem result_id_nodup_amended :
    (∀ A B, ((mergePipeline A B).map FoodItem.id).Nodup) ∧
    (∀ q r1 r2,
      (∀ r ∈ searchFoods r1 r2, ∀ c ∈ searchCommonFoods q, r.id ≠ c.id) →
      ((searchAllFoods q r1 r2).map FoodItem.id).Nodup) := by
  refine ⟨mergePipeline_ids_nodup, ?_⟩
  intro q r1 r2 hdisj
  simp only [searchAllFoods]
  rw [List.map_append, List.nodup_append]
  refine ⟨searchCommonFoods_ids_nodup q, ?_, ?_⟩
  · exact (searchFoods_ids_nodup r1 r2).sublist ((List.filter_sublist _).map _)
  · intro a ha hb
    rcases List.mem_map.mp ha with ⟨c, hc, hca⟩
    rcases List.mem_map.mp hb with ⟨r, hr, hra⟩
    have hr' : r ∈ searchFoods r1 r2 := (List.filter_sublist _).subset hr
    exact hdisj r hr' c hc (hra.trans hca.symm)

/-- A surviving remote product whose identity key `X900` collides with no
synthetic curated id. -/
def distinctRemote : Product :=
  { code := "X900", product_name := some "Remote Chicken Soup",
    nutriments := some { proteins_100g := some 10 } }

/-- Witness for the amended C9 theorem with a remote record that actually
survives into the combined output: the curated match `common-0` and the
remote record `X900` have pairwise distinct ids, and the disjointness
hypothesis is discharged at a nonempty remote result set. -/
theorem result_id_nodup_witness :
    ((searchAllFoods ("chicken") (FetchResult.success true [distinctRemote])
        (FetchResult.success true [])).map FoodItem.id).Nodup :=
  result_id_nodup_amended.2 ("chicken") (FetchResult.success true [distinctRemote])
    (FetchResult.success true []) (by with_unfolding_all decide)

/-- The first-listed occurrence of identity key `X123` (spec scenario 2). -/
def x123A : Product :=
  { code := "X123", product_name := some "First Name",
    nutriments := some { proteins_100g := some 10 } }

/-- The second-listed occurrence of identity key `X123`, with another name. -/
def x123B : Product :=
  { code := "X123", product_name := some "Second Name",
    nutriments := some { proteins_100g := some 20 } }

/-- Witness for C1 at the two arrays of spec scenario 2, which share the
identity key `X123`. -/
theorem merger_first_occurrence_witness :
    ((mergePipeline [x123A] [x123B]).map FoodItem.id).Nodup ∧
    (∀ r ∈ mergePipeline [x123A] [x123B], ∃ p, p ∈ [x123A] ++ [x123B] ∧ p.code = r.id ∧
        ([x123A] ++ [x123B]).find? (fun x => x.code == r.id) = some p ∧
        r = transformProduct p) ∧
    (mergePipeline [x123A] [x123B]).Sublist (([x123A] ++ [x123B]).map transformProduct) :=
  merger_dedup_first_occurrence_order [x123A] [x123B]

/-- Witness for C3's refinement clause at a concrete query and failing
fetches. -/
theorem combiner_spec_witness :
    searchAllFoods ("tofu") FetchResult.failure FetchResult.failure
      = combinerSpec ("tofu") (searchFoods FetchResult.failure FetchResult.failure) :=
  combiner_curated_priority_caseinsensitive_dedup.1 ("tofu") FetchResult.failure
    FetchResult.failure

/-- Witness for C10 at concrete fetch outcomes. -/
theorem searchFoods_asymmetric_witness :
    searchFoods FetchResult.failure (FetchResult.success true [chickenRemote]) = [] ∧
    searchFoods (FetchResult.success true [chickenRemote])
        (FetchResult.success false [negativeProduct]) = mergePipeline [chickenRemote] [] :=
  ⟨searchFoods_asymmetric_failure.1 (FetchResult.success true [chickenRemote]),
   searchFoods_asymmetric_failure.2.2 [chickenRemote] [negativeProduct]⟩
